import Mathlib

/-!
Shallow embedding of the core of the rtsp_proxy program, a resilient RTSP
video relay.  Pure functions of the source are translated into Lean
functions; the stateful inner loops become explicit step functions on
state records.  Machine floats of the source are idealized as exact
rationals; times are rationals; pixels are rationals in the range 0..255.
External collaborators (the cv2 drawing library and the ffmpeg media
engine) are modelled abstractly where the source only calls into them:
text metrics and glyph coverage become an abstract structure, and the
documented output-dimension rule of the ffmpeg scale filter with
force_original_aspect_ratio=decrease is a small arithmetic function.
-/

namespace RTSPProxy

/-- A decoded video image: height, width, and a pixel map
(row, column, channel) → value.  Frames in the source are numpy uint8
arrays of shape (height, width, 3); pixel values are idealized as
rationals. -/
structure Img where
  h : Nat
  w : Nat
  pix : Nat → Nat → Nat → ℚ

/-- Abstract model of the external cv2 text engine.  textSize gives the
(width, height) returned by cv2.getTextSize for a string at the fixed
font settings used by the source; maskAt gives the glyph coverage of
cv2.putText relative to the text origin (the source uses the default
line type, no anti-aliasing, so a pixel is either set to the text color
or untouched).  mask_bound records that the glyphs stay inside the
reported text-size box: covered offsets (dx, dy) measured rightward and
upward from the origin satisfy 0 ≤ dx < width and 0 ≤ dy < height. -/
structure CV where
  textSize : String → Nat × Nat
  maskAt : String → Int → Int → Bool
  mask_bound : ∀ s dx dy, maskAt s dx dy = true →
    0 ≤ dx ∧ dx < ((textSize s).1 : Int) ∧ 0 ≤ dy ∧ dy < ((textSize s).2 : Int)

/-- Model of cv2.putText: every pixel covered by the glyph mask of the
text placed at origin (ox, oy) (bottom-left corner, text extending up
and to the right) is set to the given color on all channels; every other
pixel is untouched. -/
def putText (cv : CV) (text : String) (ox oy : Int) (color : ℚ) (img : Img) : Img :=
  { img with pix := fun y x c =>
      if cv.maskAt text ((x : Int) - ox) (oy - (y : Int)) then color
      else img.pix y x c }

/-- Model of cv2.rectangle with thickness -1 from corner (0,0) to corner
(x2, y2): fills every pixel with both coordinates inside the closed
rectangle with the given color. -/
def rectangleFill (x2 y2 : Nat) (color : ℚ) (img : Img) : Img :=
  { img with pix := fun y x c =>
      if x ≤ x2 ∧ y ≤ y2 then color else img.pix y x c }

/-- Embedding of the Python format expression applied to the staleness
age in add_status_overlay: one decimal place. -/
def fmtOneDec (q : ℚ) : String :=
  let n : Int := round (q * 10)
  toString (n / 10) ++ "." ++ toString (n % 10)

/-- The text rendered by the staleness overlay for a given age:
source line 143. -/
def overlay_text (age : ℚ) : String :=
  "No frames received for " ++ fmtOneDec age ++ "s"

/-- Embedding of RTSPProxy.add_status_overlay (source lines 136 to 174).
If at most one second has passed the frame is returned unchanged.
Otherwise a box sized to the text plus 2 * 10 pixels of padding is
prepared on a copy of the frame: the closed rectangle (0,0) to
(box_width, box_height) is filled black, the text is drawn in white at
origin (padding, text_height + padding), and the region
rows 0..box_height-1 by columns 0..box_width-1 of the frame is replaced
by the cv2.addWeighted blend with weights 0.7 for the frame and 0.3 for
the overlay copy. -/
def add_status_overlay (cv : CV) (frame : Img) (seconds_since_frame : ℚ) : Img :=
  if seconds_since_frame ≤ 1 then frame
  else
    let text := overlay_text seconds_since_frame
    let ts := cv.textSize text
    let box_width := ts.1 + 2 * 10
    let box_height := ts.2 + 2 * 10
    let overlay := rectangleFill box_width box_height 0 frame
    let overlay2 := putText cv text 10 ((ts.2 : Int) + 10) 255 overlay
    { frame with pix := fun y x c =>
        if y < box_height ∧ x < box_width then
          (7 / 10) * frame.pix y x c + (3 / 10) * overlay2.pix y x c
        else frame.pix y x c }

/-- Embedding of RTSPProxy.create_error_frame (source lines 124 to 134):
a black frame of the output dimensions with the message rendered
centered in white.  Python floor division becomes Int.fdiv. -/
def create_error_frame (cv : CV) (output_width output_height : Nat) : Img :=
  let message := "No frames received"
  let ts := cv.textSize message
  let text_x : Int := Int.fdiv ((output_width : Int) - (ts.1 : Int)) 2
  let text_y : Int := Int.fdiv ((output_height : Int) + (ts.2 : Int)) 2
  putText cv message text_x text_y 255 ⟨output_height, output_width, fun _ _ _ => 0⟩

/-- Embedding of the frame-choice branch of RTSPProxy.write_stream for a
tick on which no fresh frame was taken (source lines 355 to 364): compute
the age since the last received frame; past the stale timeout emit the
error frame; otherwise emit a copy of the last frame with the staleness
overlay (which is the identity at ages of at most one second); with no
last frame emit the error frame. -/
def select_frame (cv : CV) (output_width output_height : Nat)
    (current_time last_frame_received timeout_seconds : ℚ)
    (last_frame : Option Img) : Img :=
  let seconds_without_frames := current_time - last_frame_received
  if seconds_without_frames > timeout_seconds then
    create_error_frame cv output_width output_height
  else
    match last_frame with
    | some f => add_status_overlay cv f seconds_without_frames
    | none => create_error_frame cv output_width output_height

/-- The full per-tick frame choice of RTSPProxy.write_stream (source
lines 344 to 364): a freshly taken frame is used as is; otherwise the
choice of select_frame. -/
def tick_frame (cv : CV) (output_width output_height : Nat)
    (taken : Option Img) (current_time last_frame_received timeout_seconds : ℚ)
    (last_frame : Option Img) : Img :=
  match taken with
  | some f => f
  | none =>
      select_frame cv output_width output_height current_time
        last_frame_received timeout_seconds last_frame

/-- The encoding configuration fields consulted by
RTSPProxy.get_codec_parameters. -/
structure Config where
  codec : String
  bitrate : String
  preset : String
  gop : Nat
  fps : ℚ

/-- Embedding of RTSPProxy.get_codec_parameters (source lines 96 to 122)
as an association list in construction order: the base dictionary holds
the codec, bitrate, GOP and framerate; the h264 and h265 branches add
their encoder controls; the copy branch replaces the dictionary with the
single copy directive. -/
def get_codec_parameters (c : Config) : List (String × String) :=
  let params := [("c:v", c.codec), ("b:v", c.bitrate),
                 ("g", toString c.gop), ("r", toString c.fps)]
  if c.codec = "h264" ∨ c.codec = "libx264" then
    params ++ [("preset", c.preset), ("tune", "zerolatency"),
               ("profile:v", "main"), ("pix_fmt", "yuv420p"),
               ("force_key_frames",
                "expr:gte(t,n_forced*" ++ toString c.gop ++ "/" ++
                  toString c.fps ++ ")")]
  else if c.codec = "h265" ∨ c.codec = "libx265" then
    params ++ [("preset", c.preset),
               ("x265-params",
                "no-repeat-headers=1:keyint=" ++ toString c.gop ++
                  ":min-keyint=" ++ toString c.gop)]
  else if c.codec = "copy" then
    [("c:v", "copy")]
  else params

/-- The outcome the operating system presents to one call of
RTSPProxy.read_with_timeout: the select wait can run out before the
deadline, the pipe can deliver a byte string, or select/read can raise
one of the caught errors. -/
inductive PipeOutcome where
  | notReady
  | ready (data : List Nat)
  | ioError
deriving DecidableEq

/-- Embedding of RTSPProxy.read_with_timeout (source lines 81 to 94).
A missing pipe, a select timeout, a caught exception, an empty read
(falsy bytes) and a read of the wrong length all yield none (the stall
indicator); only a byte string of exactly the requested size is
returned. -/
def read_with_timeout (pipe : Option PipeOutcome) (size : Nat)
    (timeout : ℚ) : Option (List Nat) :=
  match timeout, pipe with
  | _, none => none
  | _, some .notReady => none
  | _, some .ioError => none
  | _, some (.ready data) =>
      if data = [] ∨ data.length ≠ size then none else some data

/-- A non-identity scaling plan as computed by RTSPProxy.setup_scaling:
the aspect-preserving scaled size and the pad offsets of the content
region inside the output frame. -/
structure LetterboxPlan where
  new_width : Nat
  new_height : Nat
  pad_x : Nat
  pad_y : Nat
deriving DecidableEq

/-- Embedding of the plan computation of RTSPProxy.setup_scaling (source
lines 204 to 243) once both input dimensions are known: none for the
identity plan; otherwise fit to width when the input is wider than the
output shape and to height when it is taller, with the floor of the
scaled float dimension (Python int truncation on a positive value) and
half the slack as the pad offset.  The wider branch pads at x = 0 and
y = pad_top; the taller branch pads at x = pad_left and y = 0. -/
def setup_scaling (input_width input_height output_width output_height : Nat) :
    Option LetterboxPlan :=
  if input_width = output_width ∧ input_height = output_height then none
  else
    let input_aspect : ℚ := (input_width : ℚ) / (input_height : ℚ)
    let output_aspect : ℚ := (output_width : ℚ) / (output_height : ℚ)
    if input_aspect > output_aspect then
      let new_width := output_width
      let new_height := (Int.floor ((output_width : ℚ) / input_aspect)).toNat
      let pad_top := (output_height - new_height) / 2
      some ⟨new_width, new_height, 0, pad_top⟩
    else
      let new_height := output_height
      let new_width := (Int.floor ((output_height : ℚ) * input_aspect)).toNat
      let pad_left := (output_width - new_width) / 2
      some ⟨new_width, new_height, pad_left, 0⟩

/-- The filter string RTSPProxy.setup_scaling stores in scale_filter for
a non-identity plan (source lines 229 to 242): a scale stage followed by
a pad stage with the computed offsets and black fill. -/
def scale_filter_string (p : LetterboxPlan) (output_width output_height : Nat) :
    String :=
  "scale=" ++ toString p.new_width ++ ":" ++ toString p.new_height ++
    ":force_original_aspect_ratio=decrease,pad=" ++ toString output_width ++
    ":" ++ toString output_height ++ ":" ++ toString p.pad_x ++ ":" ++
    toString p.pad_y ++ ":black"

/-- The filter node RTSPProxy.read_stream actually attaches to the
spawned decoder (source lines 262 to 264): nothing when scale_filter is
unset, and otherwise a single scale filter with
size = output_width x output_height and
force_original_aspect_ratio=decrease — the stored scale-and-pad string
is only tested for truthiness, never passed on. -/
inductive DecoderFilter where
  | identity
  | scaleOnly (width height : Nat)
deriving DecidableEq

/-- The decoder filter derived from the computed plan in
RTSPProxy.read_stream (source lines 262 to 264). -/
def attached_decoder_filter (plan : Option LetterboxPlan)
    (output_width output_height : Nat) : DecoderFilter :=
  match plan with
  | none => .identity
  | some _ => .scaleOnly output_width output_height

/-- Modelled from the documented behavior of the external ffmpeg scale
filter with force_original_aspect_ratio=decrease: the output dimensions
are the largest size that fits inside the target box while keeping the
input aspect, so the target is shrunk on the axis that would
overflow. -/
def scale_decrease_dims (iw ih tw th : Nat) : Nat × Nat :=
  if iw * th ≤ tw * ih then (iw * th / ih, th) else (tw, tw * ih / iw)

/-- Embedding of the per-iteration cadence update of
RTSPProxy.write_stream (source lines 331 to 341) as a function of the
time sample it actually consults: next_frame_time is advanced by the
frame interval, then reset to the sample plus one interval when the
sample exceeds the advanced value by more than one interval. -/
def next_tick_update (next_frame_time frame_interval t : ℚ) : ℚ :=
  let advanced := next_frame_time + frame_interval
  if t > advanced + frame_interval then t + frame_interval else advanced

/-- The two clock readings relevant to one write_stream iteration: the
time.time() sample taken at the top of the loop (source line 331, before
the sleep at line 336) and the wall-clock time at which the drift check
on line 340 is actually evaluated (after the sleep). -/
structure TickTiming where
  readTime : ℚ
  checkTime : ℚ
  read_le_check : readTime ≤ checkTime

/-- What the source computes in one iteration: the drift check consults
the pre-sleep sample current_time. -/
def write_stream_tick (next_frame_time frame_interval : ℚ)
    (t : TickTiming) : ℚ :=
  next_tick_update next_frame_time frame_interval t.readTime

/-- Modelled from the claim wording: the drift check consults the clock
at the moment the check is evaluated, after the sleep. -/
def claim_tick (next_frame_time frame_interval : ℚ)
    (t : TickTiming) : ℚ :=
  next_tick_update next_frame_time frame_interval t.checkTime

/-- The drain loop that precedes every put in RTSPProxy.read_stream
(source lines 300 to 304): get_nowait until the queue reports empty. -/
def queue_drain : List Img → List Img
  | [] => []
  | _ :: rest => queue_drain rest

/-- Queue.put on the drained queue (source line 305).  The queue has
maxsize 1, and the put always follows the drain in the single producer,
so it never blocks and appends its frame. -/
def queue_put (q : List Img) (f : Img) : List Img := q ++ [f]

/-- The cross-stage frame buffer of the source: the Queue(maxsize=1)
frame_queue (source line 25) contents plus the frame_available event
flag (source line 41). -/
structure Buf where
  frame_queue : List Img
  frame_available : Bool

/-- A publish by the ingest stage (source lines 300 to 306): drain, put
the new frame, set the availability flag. -/
def buf_publish (b : Buf) (f : Img) : Buf :=
  { frame_queue := queue_put (queue_drain b.frame_queue) f,
    frame_available := true }

/-- The take attempt of the relay stage (source lines 345 to 352): when
the availability flag is set, get_nowait; on success the flag is
cleared; when the get raises Empty the exception is swallowed before the
clear, so the flag stays set. -/
def buf_try_take (b : Buf) : Option Img × Buf :=
  if b.frame_available then
    match b.frame_queue with
    | f :: rest => (some f, { frame_queue := rest, frame_available := false })
    | [] => (none, b)
  else (none, b)

/-- The buffer states reachable from the initial empty buffer under the
two operations the source performs on it. -/
inductive BufReach : Buf → Prop where
  | init : BufReach ⟨[], false⟩
  | publish (b : Buf) (f : Img) : BufReach b → BufReach (buf_publish b f)
  | take (b : Buf) : BufReach b → BufReach (buf_try_take b).2

/-- The frame built from a full raw read in RTSPProxy.read_stream
(source lines 290 to 293): the byte string reshaped to
(height, width, 3). -/
def bytes_to_img (w h : Nat) (bytes : List Nat) : Img :=
  ⟨h, w, fun y x c => (bytes.getD (3 * (y * w + x) + c) 0 : ℚ)⟩

/-- The state of the ingest inner loop of RTSPProxy.read_stream: the
consecutive-failure counter, the frame buffer fields and the shared
last-frame fields and timestamps. -/
structure IngestState where
  consecutive_failures : Nat
  frame_queue : List Img
  frame_available : Bool
  last_frame : Option Img
  last_frame_time : ℚ
  last_frame_received : ℚ

/-- What one ingest inner-loop iteration does besides updating state:
publish a frame, pause 100ms and retry, or exit the inner loop to
restart the decoder. -/
inductive IngestAction where
  | published
  | sleep100ms
  | exit_restart
deriving DecidableEq

/-- Embedding of one iteration of the ingest inner loop of
RTSPProxy.read_stream (source lines 277 to 306).  in_bytes is the result
of read_with_timeout for one frame of w * h * 3 bytes; now is
time.time() at line 295.  A missing or short read increments the failure
counter, exits to restart the decoder at three, and otherwise pauses
100ms; a full read resets the counter, stores a copy of the frame and
the timestamps, and publishes the frame latest-wins (drain, put, set the
availability flag). -/
def read_stream_step (w h : Nat) (now : ℚ) (s : IngestState)
    (in_bytes : Option (List Nat)) : IngestState × IngestAction :=
  let frame_size := w * h * 3
  if in_bytes = none ∨ (in_bytes.getD []).length ≠ frame_size then
    let failures := s.consecutive_failures + 1
    if failures ≥ 3 then
      ({ s with consecutive_failures := failures }, .exit_restart)
    else
      ({ s with consecutive_failures := failures }, .sleep100ms)
  else
    let frame := bytes_to_img w h (in_bytes.getD [])
    ({ consecutive_failures := 0,
       frame_queue := queue_put (queue_drain s.frame_queue) frame,
       frame_available := true,
       last_frame := some frame,
       last_frame_time := now,
       last_frame_received := now }, .published)

/-- A heap of numpy arrays, to make the in-place mutation and copying of
the source observable: array identifiers below next hold live arrays. -/
structure Heap where
  arrs : Nat → Img
  next : Nat

/-- numpy ndarray.copy: allocates a fresh array with the same contents
and returns its identifier. -/
def heap_copy (h : Heap) (i : Nat) : Heap × Nat :=
  ({ arrs := fun j => if j = h.next then h.arrs i else h.arrs j,
     next := h.next + 1 }, h.next)

/-- RTSPProxy.add_status_overlay at the heap level: the function draws
on the array it is given and returns that same array (source lines 159
to 174 mutate frame in place and line 174 returns it); no other array is
touched. -/
def add_status_overlay_heap (cv : CV) (h : Heap) (i : Nat) (age : ℚ) :
    Heap × Nat :=
  ({ h with arrs := fun j =>
      if j = i then add_status_overlay cv (h.arrs j) age else h.arrs j }, i)

/-- The frozen-frame emission path of RTSPProxy.write_stream at the heap
level (source lines 359 to 362): copy the buffered last frame into a
fresh per-tick array, then apply the staleness overlay to the copy; the
returned identifier is the array whose bytes are written downstream. -/
def write_frozen_tick (cv : CV) (h : Heap) (last_frame_id : Nat)
    (age : ℚ) : Heap × Nat :=
  let hc := heap_copy h last_frame_id
  add_status_overlay_heap cv hc.1 hc.2 age

/-- A concrete instantiation of the abstract cv2 model, used for closed
witnesses: fixed text metrics and an empty glyph mask. -/
def cvTriv : CV where
  textSize := fun _ => (100, 20)
  maskAt := fun _ _ _ => false
  mask_bound := by intro s dx dy hm; simp at hm

/-- A concrete test frame for closed witnesses. -/
def imgTest : Img := ⟨4, 4, fun _ _ _ => 100⟩

/-- A second concrete test frame for closed witnesses. -/
def imgTest2 : Img := ⟨4, 4, fun _ _ _ => 50⟩

/-- Every drain loop ends with an empty queue. -/
theorem queue_drain_nil (q : List Img) : queue_drain q = [] := by
  induction q with
  | nil => rfl
  | cons a l ih => simpa [queue_drain] using ih

/-- Claim C2: the spec requires the filter attached to the spawned
decoder to be the combined scale-and-pad filter realizing the computed
plan, so the decoder byte stream is exactly output resolution.  At input
640x480 and output 1920x1080 the computed plan is indeed the centered
1440x1080 region with 240-pixel black bars (and setup_scaling even
renders the matching scale-and-pad string), but read_stream attaches
only a scale filter with force_original_aspect_ratio=decrease, under
which the decoder emits 1440x1080 frames — not the output resolution.
This theorem evaluates the code at that failing input. -/
theorem c2_letterbox_filter_code_bug :
    setup_scaling 640 480 1920 1080 = some ⟨1440, 1080, 240, 0⟩ ∧
    scale_filter_string ⟨1440, 1080, 240, 0⟩ 1920 1080 =
      "scale=1440:1080:force_original_aspect_ratio=decrease,pad=1920:1080:240:0:black" ∧
    attached_decoder_filter (setup_scaling 640 480 1920 1080) 1920 1080 =
      DecoderFilter.scaleOnly 1920 1080 ∧
    scale_decrease_dims 640 480 1920 1080 = (1440, 1080) ∧
    (1440, 1080) ≠ (1920, 1080) := by
  have hplan : setup_scaling 640 480 1920 1080 = some ⟨1440, 1080, 240, 0⟩ := by
    norm_num [setup_scaling]
    decide
  refine ⟨hplan, by decide, ?_, by decide, by decide⟩
  rw [hplan]
  rfl

/-- Claim C3, counterexample: the claim reads the drift guard with
'now' being the clock at the moment the check is evaluated (after the
pre-tick sleep); the source consults current_time, sampled before the
sleep.  At an iteration with next_tick 0, interval 1, pre-sleep sample 1
and check-time clock 3, the source leaves next_tick at the advanced
value 1 while the claim mandates a reset to 4. -/
theorem c3_drift_guard_counterexample :
    write_stream_tick 0 1 ⟨1, 3, by norm_num⟩ = 1 ∧
    claim_tick 0 1 ⟨1, 3, by norm_num⟩ = 4 ∧
    write_stream_tick 0 1 ⟨1, 3, by norm_num⟩ ≠
      claim_tick 0 1 ⟨1, 3, by norm_num⟩ := by
  refine ⟨?_, ?_, ?_⟩ <;>
    norm_num [write_stream_tick, claim_tick, next_tick_update]

/-- Claim C3, amended: on every relay iteration, after advancing
next_tick by one frame interval, the source resets next_tick to
sample + interval exactly when the time sample taken at the start of the
iteration (before the pre-tick sleep) exceeds the advanced next_tick by
more than one interval; otherwise next_tick keeps its advanced value. -/
theorem c3_drift_guard_amended (T dt : ℚ) (t : TickTiming) :
    (t.readTime > T + dt + dt → write_stream_tick T dt t = t.readTime + dt) ∧
    (t.readTime ≤ T + dt + dt → write_stream_tick T dt t = T + dt) := by
  constructor
  · intro hgt
    simp only [write_stream_tick, next_tick_update]
    rw [if_pos hgt]
  · intro hle
    simp only [write_stream_tick, next_tick_update]
    rw [if_neg (not_lt.mpr hle)]

/-- Witness for the amended C3 at concrete timings: a late sample 5
resets next_tick to 6, a timely sample 1 leaves the advanced value 1. -/
theorem c3_drift_guard_amended_witness :
    write_stream_tick 0 1 ⟨5, 5, le_refl 5⟩ = 5 + 1 ∧
    write_stream_tick 0 1 ⟨1, 1, le_refl 1⟩ = 0 + 1 :=
  ⟨(c3_drift_guard_amended 0 1 ⟨5, 5, le_refl 5⟩).1 (by norm_num),
   (c3_drift_guard_amended 0 1 ⟨1, 1, le_refl 1⟩).2 (by norm_num)⟩

/-- Claim C5: read_with_timeout returns either exactly the requested
number of bytes (and then precisely the bytes the pipe delivered) or the
stall indicator none; a caught exception yields the stall indicator, and
any read of the wrong length is reported as a stall, never as a
frame. -/
theorem c5_read_with_timeout (pipe : Option PipeOutcome) (size : Nat)
    (timeout : ℚ) :
    (∀ d, read_with_timeout pipe size timeout = some d →
      d.length = size ∧ pipe = some (PipeOutcome.ready d)) ∧
    read_with_timeout (some PipeOutcome.ioError) size timeout = none ∧
    (∀ raw, raw.length ≠ size →
      read_with_timeout (some (PipeOutcome.ready raw)) size timeout = none) := by
  refine ⟨?_, rfl, ?_⟩
  · intro d hd
    match pipe with
    | none => simp [read_with_timeout] at hd
    | some .notReady => simp [read_with_timeout] at hd
    | some .ioError => simp [read_with_timeout] at hd
    | some (.ready data) =>
        simp only [read_with_timeout] at hd
        by_cases hc : data = [] ∨ data.length ≠ size
        · rw [if_pos hc] at hd
          cases hd
        · rw [if_neg hc] at hd
          injection hd with hdd
          subst hdd
          push_neg at hc
          exact ⟨hc.2, rfl⟩
  · intro raw hraw
    simp only [read_with_timeout]
    rw [if_pos (Or.inr hraw)]

/-- Witness for C5: a full 3-byte read is returned exactly, a short
2-byte read for a 3-byte request is a stall. -/
theorem c5_read_with_timeout_witness :
    (([1, 2, 3] : List Nat).length = 3 ∧
      (some (PipeOutcome.ready [1, 2, 3]) : Option PipeOutcome) =
        some (PipeOutcome.ready [1, 2, 3])) ∧
    read_with_timeout (some (PipeOutcome.ready [1, 2])) 3 5 = none :=
  ⟨(c5_read_with_timeout (some (.ready [1, 2, 3])) 3 5).1 [1, 2, 3] rfl,
   (c5_read_with_timeout (some (.ready [1, 2])) 3 5).2.2 [1, 2] (by decide)⟩

/-- Claim C9: with the copy codec the parameter mapping returns only the
copy directive; every entry of the returned argument set is the pair
c:v = copy, so no bitrate, preset, GOP, framerate or pixel-format
control is present. -/
theorem c9_codec_copy (c : Config) (hc : c.codec = "copy") :
    get_codec_parameters c = [("c:v", "copy")] ∧
    ∀ kv, kv ∈ get_codec_parameters c → kv = ("c:v", "copy") := by
  have h : get_codec_parameters c = [("c:v", "copy")] := by
    simp [get_codec_parameters, hc]
  refine ⟨h, ?_⟩
  intro kv hkv
  rw [h] at hkv
  simpa using hkv

/-- Witness for C9 at the concrete copy configuration. -/
theorem c9_codec_copy_witness :
    get_codec_parameters ⟨"copy", "2M", "medium", 30, 30⟩ = [("c:v", "copy")] :=
  (c9_codec_copy ⟨"copy", "2M", "medium", 30, 30⟩ rfl).1

/-- Claim C6: two publishes with no intervening take leave exactly the
second frame in the buffer; a later try_take observes only that frame,
and once it is taken further takes observe nothing; and every buffer
state reachable from the initial empty buffer holds at most one
undelivered frame. -/
theorem c6_latest_wins :
    (∀ b : Buf, ∀ f1 f2 : Img,
      (buf_publish (buf_publish b f1) f2).frame_queue = [f2] ∧
      (buf_try_take (buf_publish (buf_publish b f1) f2)).1 = some f2 ∧
      (buf_try_take (buf_try_take (buf_publish (buf_publish b f1) f2)).2).1 =
        none) ∧
    (∀ b : Buf, BufReach b → b.frame_queue.length ≤ 1) := by
  constructor
  · intro b f1 f2
    have h2 : buf_publish (buf_publish b f1) f2 = ⟨[f2], true⟩ := by
      simp [buf_publish, queue_put, queue_drain_nil]
    rw [h2]
    exact ⟨rfl, rfl, rfl⟩
  · intro b hb
    induction hb with
    | init => simp
    | publish b f hb ih => simp [buf_publish, queue_put, queue_drain_nil]
    | take b hb ih =>
        simp only [buf_try_take]
        by_cases ha : b.frame_available = true
        · rw [if_pos ha]
          cases hq : b.frame_queue with
          | nil => simpa using ih
          | cons f rest =>
              rw [hq] at ih
              simp only [List.length_cons] at ih
              simpa using Nat.le_of_succ_le ih
        · rw [if_neg ha]
          exact ih

/-- Witness for C6 at a concrete buffer run, with reachability of the
initial buffer discharged by the base constructor. -/
theorem c6_latest_wins_witness :
    ((buf_publish (buf_publish ⟨[], false⟩ imgTest) imgTest2).frame_queue =
        [imgTest2] ∧
      (buf_try_take (buf_publish (buf_publish ⟨[], false⟩ imgTest) imgTest2)).1 =
        some imgTest2 ∧
      (buf_try_take
          (buf_try_take
            (buf_publish (buf_publish ⟨[], false⟩ imgTest) imgTest2)).2).1 =
        none) ∧
    (Buf.mk [] false).frame_queue.length ≤ 1 :=
  ⟨c6_latest_wins.1 ⟨[], false⟩ imgTest imgTest2,
   c6_latest_wins.2 ⟨[], false⟩ BufReach.init⟩

/-- The success branch of one ingest inner-loop iteration. -/
theorem read_stream_step_success (w h : Nat) (now : ℚ) (s : IngestState)
    (d : List Nat) (hlen : d.length = w * h * 3) :
    read_stream_step w h now s (some d) =
      ({ consecutive_failures := 0,
         frame_queue := [bytes_to_img w h d],
         frame_available := true,
         last_frame := some (bytes_to_img w h d),
         last_frame_time := now,
         last_frame_received := now }, IngestAction.published) := by
  simp only [read_stream_step, Option.getD_some]
  rw [if_neg (by simp [hlen])]
  simp [queue_put, queue_drain_nil]

/-- The failure branch of one ingest inner-loop iteration. -/
theorem read_stream_step_fail (w h : Nat) (now : ℚ) (s : IngestState)
    (in_bytes : Option (List Nat))
    (hc : in_bytes = none ∨ (in_bytes.getD []).length ≠ w * h * 3) :
    read_stream_step w h now s in_bytes =
      if s.consecutive_failures + 1 ≥ 3 then
        ({ s with consecutive_failures := s.consecutive_failures + 1 },
          IngestAction.exit_restart)
      else
        ({ s with consecutive_failures := s.consecutive_failures + 1 },
          IngestAction.sleep100ms) := by
  simp only [read_stream_step]
  rw [if_pos hc]

/-- Claim C4: in the ingest inner loop a full-frame read resets the
failure counter to 0 and publishes the frame (latest-wins: the queue
holds exactly the new frame, the availability flag is set, the shared
last frame is updated); a stall or short read increments the counter and
leaves the buffer alone; the loop exits to restart the decoder exactly
when the counter reaches 3, and a failed read below the threshold is
followed by the 100ms pause and a retry. -/
theorem c4_ingest_inner_loop (w h : Nat) (now : ℚ) (s : IngestState)
    (in_bytes : Option (List Nat)) :
    (∀ d, in_bytes = some d → d.length = w * h * 3 →
      (read_stream_step w h now s in_bytes).1.consecutive_failures = 0 ∧
      (read_stream_step w h now s in_bytes).1.frame_queue =
        [bytes_to_img w h d] ∧
      (read_stream_step w h now s in_bytes).1.frame_available = true ∧
      (read_stream_step w h now s in_bytes).1.last_frame =
        some (bytes_to_img w h d) ∧
      (read_stream_step w h now s in_bytes).2 = IngestAction.published) ∧
    ((in_bytes = none ∨ (in_bytes.getD []).length ≠ w * h * 3) →
      (read_stream_step w h now s in_bytes).1.consecutive_failures =
        s.consecutive_failures + 1 ∧
      ((read_stream_step w h now s in_bytes).2 = IngestAction.exit_restart ↔
        3 ≤ s.consecutive_failures + 1) ∧
      (s.consecutive_failures + 1 < 3 →
        (read_stream_step w h now s in_bytes).2 = IngestAction.sleep100ms ∧
        (read_stream_step w h now s in_bytes).1.frame_queue = s.frame_queue ∧
        (read_stream_step w h now s in_bytes).1.last_frame = s.last_frame)) ∧
    (s.consecutive_failures ≤ 2 →
      ((read_stream_step w h now s in_bytes).2 = IngestAction.exit_restart ↔
        (read_stream_step w h now s in_bytes).1.consecutive_failures = 3)) := by
  refine ⟨?_, ?_, ?_⟩
  · intro d hd hlen
    subst hd
    rw [read_stream_step_success w h now s d hlen]
    exact ⟨rfl, rfl, rfl, rfl, rfl⟩
  · intro hc
    rw [read_stream_step_fail w h now s in_bytes hc]
    by_cases h3 : s.consecutive_failures + 1 ≥ 3
    · rw [if_pos h3]
      refine ⟨rfl, by simpa using h3, ?_⟩
      intro hlt
      omega
    · rw [if_neg h3]
      refine ⟨rfl, ?_, fun _ => ⟨rfl, rfl, rfl⟩⟩
      constructor
      · intro habs
        cases habs
      · intro hge
        exact absurd hge h3
  · intro hs2
    by_cases hc : in_bytes = none ∨ (in_bytes.getD []).length ≠ w * h * 3
    · rw [read_stream_step_fail w h now s in_bytes hc]
      by_cases h3 : s.consecutive_failures + 1 ≥ 3
      · rw [if_pos h3]
        simp only [true_iff]
        omega
      · rw [if_neg h3]
        constructor
        · intro habs
          cases habs
        · intro habs
          simp only at habs
          omega
    · push_neg at hc
      obtain ⟨d, hd⟩ := Option.ne_none_iff_exists'.mp hc.1
      have hlen : d.length = w * h * 3 := by
        have := hc.2
        rw [hd] at this
        simpa using this
      subst hd
      rw [read_stream_step_success w h now s d hlen]
      constructor
      · intro habs
        cases habs
      · intro habs
        cases habs

/-- A concrete ingest state for closed witnesses. -/
def ingestS0 : IngestState := ⟨0, [], false, none, 0, 0⟩

/-- Witness for C4: a full 3-byte frame at 1x1 resolution publishes and
resets the counter; a stalled read from the same state increments the
counter without exiting. -/
theorem c4_ingest_inner_loop_witness :
    ((read_stream_step 1 1 7 ingestS0 (some [1, 2, 3])).1.consecutive_failures =
        0 ∧
      (read_stream_step 1 1 7 ingestS0 (some [1, 2, 3])).1.frame_queue =
        [bytes_to_img 1 1 [1, 2, 3]] ∧
      (read_stream_step 1 1 7 ingestS0 (some [1, 2, 3])).1.frame_available =
        true ∧
      (read_stream_step 1 1 7 ingestS0 (some [1, 2, 3])).1.last_frame =
        some (bytes_to_img 1 1 [1, 2, 3]) ∧
      (read_stream_step 1 1 7 ingestS0 (some [1, 2, 3])).2 =
        IngestAction.published) ∧
    ((read_stream_step 1 1 7 ingestS0 none).2 = IngestAction.exit_restart ↔
      3 ≤ ingestS0.consecutive_failures + 1) :=
  ⟨(c4_ingest_inner_loop 1 1 7 ingestS0 (some [1, 2, 3])).1 [1, 2, 3] rfl
      (by decide),
   ((c4_ingest_inner_loop 1 1 7 ingestS0 none).2.1 (Or.inl rfl)).2.1⟩

/-- Pixels outside the overlay box are never touched by
add_status_overlay, at any age. -/
theorem add_status_overlay_outside (cv : CV) (frame : Img) (age : ℚ)
    (y x c : Nat)
    (hout : (cv.textSize (overlay_text age)).2 + 20 ≤ y ∨
      (cv.textSize (overlay_text age)).1 + 20 ≤ x) :
    (add_status_overlay cv frame age).pix y x c = frame.pix y x c := by
  by_cases h1 : age ≤ 1
  · simp [add_status_overlay, h1]
  · simp only [add_status_overlay]
    rw [if_neg h1]
    simp only []
    rw [if_neg (by omega)]

/-- Claim C7: the staleness overlay is the identity at ages of at most
one second; past one second, every pixel of the box sized to the
formatted text plus 10 pixels of padding on each side becomes the 0.7 to
0.3 blend of the original pixel with the prepared overlay, which is 255
(white) on the glyphs of the text drawn at the padded origin and 0
(black) elsewhere in the box. -/
theorem c7_status_overlay (cv : CV) (frame : Img) (age : ℚ) :
    (age ≤ 1 → add_status_overlay cv frame age = frame) ∧
    (age > 1 →
      ∀ y x c, y < (cv.textSize (overlay_text age)).2 + 20 →
        x < (cv.textSize (overlay_text age)).1 + 20 →
        (add_status_overlay cv frame age).pix y x c =
          (7 / 10) * frame.pix y x c +
            (3 / 10) *
              (if cv.maskAt (overlay_text age) ((x : Int) - 10)
                  (((cv.textSize (overlay_text age)).2 : Int) + 10 - (y : Int))
                then (255 : ℚ) else 0)) := by
  constructor
  · intro h1
    simp [add_status_overlay, h1]
  · intro h1 y x c hy hx
    simp only [add_status_overlay, putText, rectangleFill]
    rw [if_neg (not_le.mpr h1)]
    simp only []
    rw [if_pos (by omega)]
    by_cases hm : cv.maskAt (overlay_text age) ((x : Int) - 10)
        (((cv.textSize (overlay_text age)).2 : Int) + 10 - (y : Int)) = true
    · rw [if_pos hm, if_pos hm]
    · rw [if_neg hm, if_neg hm]
      rw [if_pos (by omega)]

/-- Witness for C7: at age one half the frame passes unchanged; at age
2 the top-left pixel becomes the blend of the original with the overlay
box. -/
theorem c7_status_overlay_witness :
    add_status_overlay cvTriv imgTest (1 / 2) = imgTest ∧
    (add_status_overlay cvTriv imgTest 2).pix 0 0 0 =
      (7 / 10) * imgTest.pix 0 0 0 +
        (3 / 10) *
          (if cvTriv.maskAt (overlay_text 2) ((0 : Int) - 10)
              (((cvTriv.textSize (overlay_text 2)).2 : Int) + 10 - (0 : Int))
            then (255 : ℚ) else 0) :=
  ⟨(c7_status_overlay cvTriv imgTest (1 / 2)).1 (by norm_num),
   (c7_status_overlay cvTriv imgTest 2).2 (by norm_num) 0 0 0 (by decide)
     (by decide)⟩

/-- Claim C1: on a tick that takes no fresh frame, the emitted frame is
determined by the age since the last received frame: past the stale
timeout the error frame; otherwise, with a previously delivered frame
present, that frame with the staleness overlay (hence, by C7, unchanged
at ages of at most one second); with no frame ever received, the error
frame. -/
theorem c1_no_fresh_frame_choice (cv : CV) (ow oh : Nat)
    (now lastRecv staleTimeout : ℚ) (last_frame : Option Img) :
    (now - lastRecv > staleTimeout →
      tick_frame cv ow oh none now lastRecv staleTimeout last_frame =
        create_error_frame cv ow oh) ∧
    (¬ now - lastRecv > staleTimeout →
      (∀ f, last_frame = some f →
        tick_frame cv ow oh none now lastRecv staleTimeout last_frame =
          add_status_overlay cv f (now - lastRecv) ∧
        (now - lastRecv ≤ 1 →
          tick_frame cv ow oh none now lastRecv staleTimeout last_frame = f)) ∧
      (last_frame = none →
        tick_frame cv ow oh none now lastRecv staleTimeout last_frame =
          create_error_frame cv ow oh)) := by
  simp only [tick_frame, select_frame]
  constructor
  · intro hage
    rw [if_pos hage]
  · intro hage
    rw [if_neg hage]
    constructor
    · intro f hf
      rw [hf]
      refine ⟨rfl, ?_⟩
      intro hone
      simp [add_status_overlay, hone]
    · intro hf
      rw [hf]

/-- Witness for C1: well past the timeout the error frame is emitted;
within one second of freshness the frozen frame is emitted untouched. -/
theorem c1_no_fresh_frame_choice_witness :
    tick_frame cvTriv 2 2 none 20 0 15 none = create_error_frame cvTriv 2 2 ∧
    tick_frame cvTriv 2 2 none (1 / 2) 0 15 (some imgTest) = imgTest :=
  ⟨(c1_no_fresh_frame_choice cvTriv 2 2 20 0 15 none).1 (by norm_num),
   (((c1_no_fresh_frame_choice cvTriv 2 2 (1 / 2) 0 15 (some imgTest)).2
        (by norm_num)).1 imgTest rfl).2 (by norm_num)⟩

/-- A concrete heap for closed witnesses: one live array. -/
def heapTest : Heap := ⟨fun _ => imgTest, 1⟩

/-- Claim C10: for ages above one second the overlay routine returns the
very identifier it was handed (the frame is modified in place), touches
no other array, and changes at most the pixels of the top-left box of
width text_width + 20 and height text_height + 20: every pixel at or
beyond those bounds keeps its value. -/
theorem c10_overlay_in_place (cv : CV) (hp : Heap) (i : Nat) (age : ℚ)
    (h1 : age > 1) :
    (add_status_overlay_heap cv hp i age).2 = i ∧
    (∀ j, j ≠ i →
      (add_status_overlay_heap cv hp i age).1.arrs j = hp.arrs j) ∧
    (∀ y x c,
      (cv.textSize (overlay_text age)).2 + 20 ≤ y ∨
        (cv.textSize (overlay_text age)).1 + 20 ≤ x →
      ((add_status_overlay_heap cv hp i age).1.arrs i).pix y x c =
        (hp.arrs i).pix y x c) := by
  refine ⟨rfl, ?_, ?_⟩
  · intro j hj
    simp [add_status_overlay_heap, hj]
  · intro y x c hout
    simp only [add_status_overlay_heap]
    rw [if_pos trivial]
    exact add_status_overlay_outside cv (hp.arrs i) age y x c hout

/-- Witness for C10 on a concrete heap: the identifier is returned, an
unrelated array is untouched, and a pixel far below the box keeps its
value. -/
theorem c10_overlay_in_place_witness :
    (add_status_overlay_heap cvTriv heapTest 0 2).2 = 0 ∧
    (add_status_overlay_heap cvTriv heapTest 0 2).1.arrs 5 =
      heapTest.arrs 5 ∧
    ((add_status_overlay_heap cvTriv heapTest 0 2).1.arrs 0).pix 100 0 0 =
      (heapTest.arrs 0).pix 100 0 0 :=
  ⟨(c10_overlay_in_place cvTriv heapTest 0 2 (by norm_num)).1,
   (c10_overlay_in_place cvTriv heapTest 0 2 (by norm_num)).2.1 5 (by decide),
   (c10_overlay_in_place cvTriv heapTest 0 2 (by norm_num)).2.2 100 0 0
     (Or.inl (by decide))⟩

/-- Claim C8: emitting a frozen frame never mutates the buffered last
frame: the overlay is drawn on a freshly copied per-tick array, the
buffered array is bit-identical afterwards, and the emitted array is the
overlaid copy. -/
theorem c8_frozen_emit_no_mutation (cv : CV) (hp : Heap) (last_id : Nat)
    (age : ℚ) (hvalid : last_id < hp.next) :
    (write_frozen_tick cv hp last_id age).1.arrs last_id =
      hp.arrs last_id ∧
    (write_frozen_tick cv hp last_id age).2 ≠ last_id ∧
    (write_frozen_tick cv hp last_id age).1.arrs
        (write_frozen_tick cv hp last_id age).2 =
      add_status_overlay cv (hp.arrs last_id) age := by
  have hne : last_id ≠ hp.next := Nat.ne_of_lt hvalid
  simp only [write_frozen_tick, heap_copy, add_status_overlay_heap]
  refine ⟨?_, ?_, ?_⟩
  · simp [hne]
  · simpa using fun habs => hne habs.symm
  · simp

/-- Witness for C8 on a concrete heap with a valid buffered-frame
identifier. -/
theorem c8_frozen_emit_no_mutation_witness :
    (write_frozen_tick cvTriv heapTest 0 2).1.arrs 0 = heapTest.arrs 0 ∧
    (write_frozen_tick cvTriv heapTest 0 2).2 ≠ 0 ∧
    (write_frozen_tick cvTriv heapTest 0 2).1.arrs
        (write_frozen_tick cvTriv heapTest 0 2).2 =
      add_status_overlay cvTriv (heapTest.arrs 0) 2 :=
  c8_frozen_emit_no_mutation cvTriv heapTest 0 2 (by decide)

end RTSPProxy
